import Mathlib

/-!
Verification development for the image processing utilities repository
(src/ultility_functions.py).

The file embeds the two functions of the repository, add_padding and
compress_image_jpeg, as executable Lean definitions:

* numpy arrays become an Image inductive (grayscale or color) with a
  total sample function; numpy.full, Python slice normalisation and the
  broadcasting rule of a numpy slice assignment are modelled explicitly;
* Python strings become Lean String with hand rolled split, lower,
  endswith, join and membership primitives matching Python semantics on
  the ASCII paths involved;
* the filesystem and the cv2 codec become an explicit environment, and
  compress_image_jpeg returns the list of observable events (decode
  calls, write calls with their parameter list, printed lines) together
  with the propagated exception, if any.
-/

/-- A decoded pixel buffer: grayscale of shape (H, W) or color of shape
(H, W, C).  Samples are read through a total function; only indices
below the bounds are meaningful. -/
inductive Image where
  | gray (H W : Nat) (px : Nat → Nat → Nat)
  | color (H W C : Nat) (px : Nat → Nat → Nat → Nat)

/-- Height of a buffer (first component of numpy shape). -/
def Image.heightOf : Image → Nat
  | .gray H _ _ => H
  | .color H _ _ _ => H

/-- Width of a buffer (second component of numpy shape). -/
def Image.widthOf : Image → Nat
  | .gray _ W _ => W
  | .color _ W _ _ => W

/-- Channel count: none for a 2-D buffer, some C for a 3-D buffer. -/
def Image.chanOf : Image → Option Nat
  | .gray _ _ _ => none
  | .color _ _ C _ => some C

/-- Sample accessor; a grayscale buffer ignores the channel index. -/
def Image.sample : Image → Nat → Nat → Nat → Nat
  | .gray _ _ px, i, j, _ => px i j
  | .color _ _ _ px, i, j, k => px i j k

/-- Errors numpy raises inside add_padding: a negative dimension passed
to numpy.full, a fill value that does not broadcast to the allocated
shape, and a slice assignment whose source does not broadcast to the
selected region. -/
inductive PadErr where
  | negativeDimension
  | fillBroadcast
  | assignBroadcast
deriving DecidableEq

/-- Python slice index normalisation for step 1 (slice.indices applied
to an axis of length n): a negative index counts from the end, and the
result is clamped to the interval from 0 to n. -/
def pyNorm (i : Int) (n : Nat) : Nat :=
  if i < 0 then (i + n).toNat else min i.toNat n

/-- Content of the new buffer after the numpy slice assignment
pad_img[rs : rs + rh, cs : cs + cw] = src for a 2-D source of shape
(H, W), once the broadcast check succeeded: inside the region the
source is read (a source axis of size 1 is broadcast), outside it the
zero fill of numpy.full remains. -/
def paste2 (rs rh cs cw H W : Nat) (px : Nat → Nat → Nat) : Nat → Nat → Nat :=
  fun i j =>
    if rs ≤ i ∧ i < rs + rh ∧ cs ≤ j ∧ j < cs + cw then
      px (if H = rh then i - rs else 0) (if W = cw then j - cs else 0)
    else 0

/-- Content of the new buffer after the numpy slice assignment for a
3-D source of shape (H, W, C); the channel axis is selected whole, so
it is copied untouched. -/
def paste3 (rs rh cs cw H W : Nat) (px : Nat → Nat → Nat → Nat) :
    Nat → Nat → Nat → Nat :=
  fun i j k =>
    if rs ≤ i ∧ i < rs + rh ∧ cs ≤ j ∧ j < cs + cw then
      px (if H = rh then i - rs else 0) (if W = cw then j - cs else 0) k
    else 0

/-- Slice assignment into the zero filled 2-D buffer of shape (nh, nw):
numpy first checks that the source shape (H, W) broadcasts to the
region shape, and raises a broadcast error otherwise. -/
def padAssign2 (nh nw H W : Nat) (px : Nat → Nat → Nat)
    (rs re cs ce : Nat) : Except PadErr Image :=
  if (H = re - rs ∨ H = 1) ∧ (W = ce - cs ∨ W = 1) then
    .ok (.gray nh nw (paste2 rs (re - rs) cs (ce - cs) H W px))
  else .error .assignBroadcast

/-- Slice assignment into the zero filled 3-D buffer of shape
(nh, nw, C); the channel axis always matches, so only the two sliced
axes are checked. -/
def padAssign3 (nh nw H W C : Nat) (px : Nat → Nat → Nat → Nat)
    (rs re cs ce : Nat) : Except PadErr Image :=
  if (H = re - rs ∨ H = 1) ∧ (W = ce - cs ∨ W = 1) then
    .ok (.color nh nw C (paste3 rs (re - rs) cs (ce - cs) H W px))
  else .error .assignBroadcast

/-- Grayscale branch of add_padding (lines 44 to 64 of the source):
new_height = height + top + bottom, new_width = width + left + right,
pad_img = numpy.full((new_height, new_width), 0, dtype uint8), then
pad_img[0 + top : new_height - bottom, 0 + left : new_width - right]
is assigned the input.  numpy.full raises on a negative dimension; the
scalar fill 0 always broadcasts. -/
def padGray (H W : Nat) (px : Nat → Nat → Nat) (l t r b : Int) :
    Except PadErr Image :=
  if ((H : Int) + t + b < 0) ∨ ((W : Int) + l + r < 0) then
    .error .negativeDimension
  else
    padAssign2 (((H : Int) + t + b).toNat) (((W : Int) + l + r).toNat) H W px
      (pyNorm (0 + t) (((H : Int) + t + b).toNat))
      (pyNorm (((H : Int) + t + b) - b) (((H : Int) + t + b).toNat))
      (pyNorm (0 + l) (((W : Int) + l + r).toNat))
      (pyNorm (((W : Int) + l + r) - r) (((W : Int) + l + r).toNat))

/-- Color branch of add_padding (lines 40 to 64 of the source):
pad_img = numpy.full((new_height, new_width, color_channel), (0, 0, 0),
dtype uint8).  numpy.full first allocates (raising on a negative
dimension) and then copies the fill value into the allocation; the
fill (0, 0, 0) has shape (3,), which broadcasts to
(new_height, new_width, color_channel) exactly when color_channel = 3,
so any other channel count raises a broadcast error before the slice
assignment is reached. -/
def padColor (H W C : Nat) (px : Nat → Nat → Nat → Nat) (l t r b : Int) :
    Except PadErr Image :=
  if ((H : Int) + t + b < 0) ∨ ((W : Int) + l + r < 0) then
    .error .negativeDimension
  else if C = 3 then
    padAssign3 (((H : Int) + t + b).toNat) (((W : Int) + l + r).toNat) H W C px
      (pyNorm (0 + t) (((H : Int) + t + b).toNat))
      (pyNorm (((H : Int) + t + b) - b) (((H : Int) + t + b).toNat))
      (pyNorm (0 + l) (((W : Int) + l + r).toNat))
      (pyNorm (((W : Int) + l + r) - r) (((W : Int) + l + r).toNat))
  else .error .fillBroadcast

/-- Embedding of add_padding (source lines 14 to 64).  The try/except
around the shape unpacking selects the 3-D branch when the buffer has
a channel axis and the 2-D branch otherwise. -/
def add_padding (image : Image) (left_padding top_padding right_padding bottom_padding : Int) :
    Except PadErr Image :=
  match image with
  | .gray H W px => padGray H W px left_padding top_padding right_padding bottom_padding
  | .color H W C px => padColor H W C px left_padding top_padding right_padding bottom_padding

/-- Predicate under which the numpy.full fill value broadcasts: always
for a 2-D buffer, and exactly for three channels in the 3-D case. -/
def channelsOk : Image → Bool
  | .gray _ _ _ => true
  | .color _ _ C _ => C == 3

/-- Error component of an add_padding result, for concrete evaluation. -/
def padResultErr : Except PadErr Image → Option PadErr
  | .ok _ => none
  | .error e => some e

/-- Shape of an add_padding result, for concrete evaluation. -/
def padResultShape : Except PadErr Image → Option (Nat × Nat × Option Nat)
  | .ok img => some (img.heightOf, img.widthOf, img.chanOf)
  | .error _ => none

/-- A store of allocated buffers, for the frame property: buffer ids
below next are allocated. -/
structure Heap where
  bufs : Nat → Option Image
  next : Nat

/-- Allocation of pad_img at the fresh id h.next, holding its contents
after the slice assignment; on error the store is untouched. -/
def heapFinish (h : Heap) (res : Except PadErr Image) : Heap × Except PadErr Nat :=
  match res with
  | .error e => (h, .error e)
  | .ok out =>
    (⟨fun i => if i = h.next then some out else h.bufs i, h.next + 1⟩, .ok h.next)

/-- Store level call body once the input buffer has been read. -/
def heapStep (h : Heap) (o : Option Image) (l t r b : Int) : Heap × Except PadErr Nat :=
  match o with
  | none => (h, .error .negativeDimension)
  | some img => heapFinish h (add_padding img l t r b)

/-- Store level version of add_padding.  The source reads the input
buffer, allocates pad_img with numpy.full and mutates only pad_img
(the slice assignment on line 62 targets pad_img); the input buffer is
only read.  The allocation of pad_img with its final contents is at a
fresh id. -/
def add_padding_heap (h : Heap) (imageId : Nat) (l t r b : Int) :
    Heap × Except PadErr Nat :=
  heapStep h (h.bufs imageId) l t r b

/-- ASCII lowering, the fragment of Python str.lower used on paths. -/
def asciiLower (c : Char) : Char :=
  if 65 ≤ c.toNat ∧ c.toNat ≤ 90 then Char.ofNat (c.toNat + 32) else c

/-- Python str.lower on an ASCII string. -/
def pyLower (s : String) : String :=
  ⟨s.data.map asciiLower⟩

/-- Python str.endswith with a single suffix. -/
def pyEndsWith (s suffix : String) : Bool :=
  suffix.data.isSuffixOf s.data

/-- Python membership test c in s for a one character needle. -/
def pyContains (s : String) (c : Char) : Bool :=
  s.data.contains c

/-- Python str.split on a one character separator, on character
lists: splitting the empty string gives one empty part, and every
occurrence of the separator starts a new part. -/
def splitCh (sep : Char) : List Char → List (List Char)
  | [] => [[]]
  | c :: rest =>
    if c = sep then [] :: splitCh sep rest
    else
      match splitCh sep rest with
      | h :: t => (c :: h) :: t
      | [] => [[c]]

/-- Python str.split on a one character separator. -/
def pySplit (sep : Char) (s : String) : List String :=
  (splitCh sep s.data).map (fun l => ⟨l⟩)

/-- Python sep.join of a list of parts. -/
def pyJoin (sep : String) : List String → String
  | [] => ""
  | [x] => x
  | x :: xs => x ++ sep ++ pyJoin sep xs

/-- Assignment parts[-1] = x of Python, replacing the last element. -/
def setLast (xs : List String) (x : String) : List String :=
  match xs with
  | [] => []
  | [_] => [x]
  | y :: rest => y :: setLast rest x

/-- Extensions accepted by the source check on lines 110 to 113. -/
def allowedExts : List String :=
  [(".jpg"), (".jpeg"), (".png"), (".bmp"), (".dib"),
   (".jpe"), (".jp2"), (".webp"), (".pbm"), (".pgm"),
   (".ppm"), (".pxm"), (".pnm"), (".sr"), (".ras"),
   (".tiff"), (".tif"), (".exr"), (".hdr"), (".pic")]

/-- image_url.lower().endswith(tuple of allowed extensions). -/
def isAllowedSource (image_url : String) : Bool :=
  allowedExts.any (fun e => pyEndsWith (pyLower image_url) e)

/-- output_name.lower().endswith((".jpg", ".jpeg", ".jpe")). -/
def isJpegName (output_name : String) : Bool :=
  pyEndsWith (pyLower output_name) (".jpg") ||
    pyEndsWith (pyLower output_name) (".jpeg") ||
    pyEndsWith (pyLower output_name) (".jpe")

/-- Derivation of new_url from image_url and output_name, source lines
121 to 140.  The backslash branch runs first; the slash branch, when it
runs, overwrites new_url, and both branches rejoin the parts with a
backslash.  The result is none exactly when neither branch ran and the
Python variable new_url was never assigned. -/
def deriveOutputUrl (image_url output_name : String) : Option String :=
  let afterBackslash : Option String :=
    if pyContains image_url '\\' then
      if isJpegName output_name then
        some (pyJoin ("\\") (setLast (pySplit '\\' image_url) output_name))
      else
        some (pyJoin ("\\") (setLast (pySplit '\\' image_url) (output_name ++ (".jpg"))))
    else none
  if pyContains image_url '/' then
    if isJpegName output_name then
      some (pyJoin ("\\") (setLast (pySplit '/' image_url) output_name))
    else
      some (pyJoin ("\\") (setLast (pySplit '/' image_url) (output_name ++ (".jpg"))))
  else afterBackslash

/-- Environment seen by compress_image_jpeg: which paths exist on the
filesystem, and whether the cv2 encode call raises (with which error
text) or succeeds. -/
structure Env where
  fileTable : String → Bool
  encodeError : Option String

/-- Observable events of one call: a cv2.imread call, a cv2.imwrite
call with its target path and its parameter list, and a printed line. -/
inductive Event where
  | decodeCall (path : String)
  | writeCall (path : String) (params : List Int)
  | printed (line : String)
deriving DecidableEq

/-- Exceptions that propagate out of compress_image_jpeg. -/
inductive PyErr where
  | valueError (msg : String)
deriving DecidableEq

/-- OpenCV constant IMWRITE_JPEG_QUALITY. -/
def IMWRITE_JPEG_QUALITY : Int := 1

/-- OpenCV constant IMWRITE_JPEG_PROGRESSIVE. -/
def IMWRITE_JPEG_PROGRESSIVE : Int := 2

/-- OpenCV constant IMWRITE_JPEG_OPTIMIZE. -/
def IMWRITE_JPEG_OPTIMIZE : Int := 3

/-- OpenCV constant IMWRITE_JPEG_LUMA_QUALITY. -/
def IMWRITE_JPEG_LUMA_QUALITY : Int := 5

/-- OpenCV constant IMWRITE_JPEG_CHROMA_QUALITY. -/
def IMWRITE_JPEG_CHROMA_QUALITY : Int := 6

/-- Head of the diagnostic printed by the except branch on line 164. -/
def logHead : String :=
  "An error occurred when trying to compress the image.\nLog: "

/-- Rendering of the Python NameError raised when new_url was never
assigned and line 155 evaluates it. -/
def nameErrorNewUrl : String :=
  "name new_url is not defined"

/-- Rendering of the Python NameError raised when the decode branch was
skipped and line 155 evaluates the unassigned variable image. -/
def nameErrorImage : String :=
  "name image is not defined"

/-- Message of the ValueError raised on line 118. -/
def missingMsg : String :=
  "Image does not exists - please check the URL and the file again"

/-- Embedding of compress_image_jpeg (source lines 77 to 164).  The
first component is the list of events the call emitted, the second the
exception that propagated to the caller, if any.  The decoded buffer is
represented by the path it was decoded from; what matters to the claims
is only whether the variable image was assigned.  Inside the try block
Python evaluates the arguments of imwrite left to right, so an
unassigned new_url raises its NameError before an unassigned image
would; both NameErrors and any cv2 error raised by imwrite itself are
caught by the except branch, which prints the diagnostic and swallows
the exception. -/
def compress_image_jpeg (env : Env) (image_url output_name : String)
    (quality : Int) (optimize progressive : Bool)
    (chroma_quality luma_quality : Int) : List Event × Option PyErr :=
  if env.fileTable image_url then
    let image : Option String :=
      if isAllowedSource image_url then some image_url else none
    let ev0 : List Event :=
      if isAllowedSource image_url then [.decodeCall image_url] else []
    let is_optimize : Int := if optimize then 1 else 0
    let is_progressive : Int := if progressive then 1 else 0
    match deriveOutputUrl image_url output_name, image with
    | none, _ => (ev0 ++ [.printed (logHead ++ nameErrorNewUrl)], none)
    | some _, none => (ev0 ++ [.printed (logHead ++ nameErrorImage)], none)
    | some u, some _ =>
      match env.encodeError with
      | some e => (ev0 ++ [.printed (logHead ++ e)], none)
      | none =>
        (ev0 ++ [.writeCall u
            [IMWRITE_JPEG_QUALITY, quality,
             IMWRITE_JPEG_OPTIMIZE, is_optimize,
             IMWRITE_JPEG_PROGRESSIVE, is_progressive,
             IMWRITE_JPEG_CHROMA_QUALITY, chroma_quality,
             IMWRITE_JPEG_LUMA_QUALITY, luma_quality],
          .printed (("Image compressed successfully: ") ++ u)], none)
  else ([], some (.valueError missingMsg))

/-- Recogniser for decode events. -/
def isDecodeEvent : Event → Bool
  | .decodeCall _ => true
  | _ => false

/-- Recogniser for write events. -/
def isWriteEvent : Event → Bool
  | .writeCall _ _ => true
  | _ => false

/-- Normalisation of a slice index that is already inside the axis. -/
theorem pyNorm_nonneg (i : Int) (n : Nat) (h0 : 0 ≤ i) (h1 : i ≤ (n : Int)) :
    pyNorm i n = i.toNat := by
  unfold pyNorm
  rw [if_neg (by omega)]
  omega

/-- With non negative padding the grayscale branch succeeds and pastes
the source at offset (top, left) without broadcasting. -/
theorem padGray_nat (H W : Nat) (px : Nat → Nat → Nat) (l t r b : Nat) :
    padGray H W px (l : Int) (t : Int) (r : Int) (b : Int) =
      Except.ok (Image.gray (H + t + b) (W + l + r) (paste2 t H l W H W px)) := by
  unfold padGray
  rw [if_neg (by omega)]
  have e1 : pyNorm (0 + (t : Int)) (((H : Int) + (t : Int) + (b : Int)).toNat) = t := by
    rw [pyNorm_nonneg _ _ (by omega) (by omega)]
    omega
  have e2 : pyNorm (((H : Int) + (t : Int) + (b : Int)) - (b : Int))
      (((H : Int) + (t : Int) + (b : Int)).toNat) = H + t := by
    rw [pyNorm_nonneg _ _ (by omega) (by omega)]
    omega
  have e3 : pyNorm (0 + (l : Int)) (((W : Int) + (l : Int) + (r : Int)).toNat) = l := by
    rw [pyNorm_nonneg _ _ (by omega) (by omega)]
    omega
  have e4 : pyNorm (((W : Int) + (l : Int) + (r : Int)) - (r : Int))
      (((W : Int) + (l : Int) + (r : Int)).toNat) = W + l := by
    rw [pyNorm_nonneg _ _ (by omega) (by omega)]
    omega
  rw [e1, e2, e3, e4]
  unfold padAssign2
  rw [if_pos ⟨Or.inl (by omega), Or.inl (by omega)⟩]
  have d1 : (((H : Int) + (t : Int) + (b : Int)).toNat) = H + t + b := by omega
  have d2 : (((W : Int) + (l : Int) + (r : Int)).toNat) = W + l + r := by omega
  have d3 : H + t - t = H := by omega
  have d4 : W + l - l = W := by omega
  rw [d1, d2, d3, d4]

/-- With non negative padding and three channels the color branch
succeeds and pastes the source at offset (top, left). -/
theorem padColor_nat (H W : Nat) (px : Nat → Nat → Nat → Nat) (l t r b : Nat) :
    padColor H W 3 px (l : Int) (t : Int) (r : Int) (b : Int) =
      Except.ok (Image.color (H + t + b) (W + l + r) 3 (paste3 t H l W H W px)) := by
  unfold padColor
  rw [if_neg (by omega), if_pos rfl]
  have e1 : pyNorm (0 + (t : Int)) (((H : Int) + (t : Int) + (b : Int)).toNat) = t := by
    rw [pyNorm_nonneg _ _ (by omega) (by omega)]
    omega
  have e2 : pyNorm (((H : Int) + (t : Int) + (b : Int)) - (b : Int))
      (((H : Int) + (t : Int) + (b : Int)).toNat) = H + t := by
    rw [pyNorm_nonneg _ _ (by omega) (by omega)]
    omega
  have e3 : pyNorm (0 + (l : Int)) (((W : Int) + (l : Int) + (r : Int)).toNat) = l := by
    rw [pyNorm_nonneg _ _ (by omega) (by omega)]
    omega
  have e4 : pyNorm (((W : Int) + (l : Int) + (r : Int)) - (r : Int))
      (((W : Int) + (l : Int) + (r : Int)).toNat) = W + l := by
    rw [pyNorm_nonneg _ _ (by omega) (by omega)]
    omega
  rw [e1, e2, e3, e4]
  unfold padAssign3
  rw [if_pos ⟨Or.inl (by omega), Or.inl (by omega)⟩]
  have d1 : (((H : Int) + (t : Int) + (b : Int)).toNat) = H + t + b := by omega
  have d2 : (((W : Int) + (l : Int) + (r : Int)).toNat) = W + l + r := by omega
  have d3 : H + t - t = H := by omega
  have d4 : W + l - l = W := by omega
  rw [d1, d2, d3, d4]

/-- Value of an exact (non broadcasting) 2-D paste. -/
theorem paste2_exact (rs cs H W : Nat) (px : Nat → Nat → Nat) (i j : Nat) :
    paste2 rs H cs W H W px i j =
      if rs ≤ i ∧ i < rs + H ∧ cs ≤ j ∧ j < cs + W then px (i - rs) (j - cs)
      else 0 := by
  unfold paste2
  rw [if_pos rfl, if_pos rfl]

/-- Value of an exact (non broadcasting) 3-D paste. -/
theorem paste3_exact (rs cs H W : Nat) (px : Nat → Nat → Nat → Nat) (i j k : Nat) :
    paste3 rs H cs W H W px i j k =
      if rs ≤ i ∧ i < rs + H ∧ cs ≤ j ∧ j < cs + W then px (i - rs) (j - cs) k
      else 0 := by
  unfold paste3
  rw [if_pos rfl, if_pos rfl]

/-- C1 (amended): for every grayscale buffer and every 3-channel color
buffer, and all non negative paddings left, top, right, bottom,
add_padding returns a buffer whose shape is (H + top + bottom,
W + left + right) with the channel axis preserved, whose sub-region of
rows top to top + H - 1 and columns left to left + W - 1 equals the
input exactly, and whose samples outside that sub-region are all zero.
(For a 3-D buffer with a channel count other than 3 the numpy.full
fill value (0, 0, 0) does not broadcast and the call raises instead;
see the counterexample.) -/
theorem add_padding_geometry (img : Image) (l t r b : Nat)
    (hch : channelsOk img = true) :
    ∃ out, add_padding img (l : Int) (t : Int) (r : Int) (b : Int) = .ok out ∧
      out.heightOf = img.heightOf + t + b ∧
      out.widthOf = img.widthOf + l + r ∧
      out.chanOf = img.chanOf ∧
      (∀ i j k, i < img.heightOf → j < img.widthOf →
        out.sample (t + i) (l + j) k = img.sample i j k) ∧
      (∀ i j k, i < out.heightOf → j < out.widthOf →
        (i < t ∨ t + img.heightOf ≤ i ∨ j < l ∨ l + img.widthOf ≤ j) →
        out.sample i j k = 0) := by
  cases img with
  | gray H W px =>
    refine ⟨Image.gray (H + t + b) (W + l + r) (paste2 t H l W H W px),
      padGray_nat H W px l t r b, rfl, rfl, rfl, ?_, ?_⟩
    · intro i j k hi hj
      simp only [Image.sample, Image.heightOf, Image.widthOf] at *
      rw [paste2_exact, if_pos ⟨by omega, by omega, by omega, by omega⟩]
      congr 1 <;> omega
    · intro i j k hi hj hout
      simp only [Image.sample, Image.heightOf, Image.widthOf] at *
      rw [paste2_exact, if_neg (by omega)]
  | color H W C px =>
    have hc : C = 3 := by
      simpa [channelsOk] using hch
    subst hc
    refine ⟨Image.color (H + t + b) (W + l + r) 3 (paste3 t H l W H W px),
      padColor_nat H W px l t r b, rfl, rfl, rfl, ?_, ?_⟩
    · intro i j k hi hj
      simp only [Image.sample, Image.heightOf, Image.widthOf] at *
      rw [paste3_exact, if_pos ⟨by omega, by omega, by omega, by omega⟩]
      congr 1 <;> omega
    · intro i j k hi hj hout
      simp only [Image.sample, Image.heightOf, Image.widthOf] at *
      rw [paste3_exact, if_neg (by omega)]

/-- Witness for add_padding_geometry at a concrete 3-channel 1 by 1
buffer with paddings left 1, top 2, right 3, bottom 4. -/
theorem add_padding_geometry_witness :
    ∃ out, add_padding (Image.color 1 1 3 (fun _ _ k => 10 + k))
        ((1 : Nat) : Int) ((2 : Nat) : Int) ((3 : Nat) : Int) ((4 : Nat) : Int) = .ok out ∧
      out.heightOf = 7 ∧ out.widthOf = 5 ∧ out.chanOf = some 3 ∧
      out.sample 2 1 2 = 12 ∧ out.sample 0 0 0 = 0 := by
  obtain ⟨out, h1, h2, h3, h4, h5, h6⟩ :=
    add_padding_geometry (Image.color 1 1 3 (fun _ _ k => 10 + k)) 1 2 3 4 rfl
  refine ⟨out, h1, by rw [h2]; rfl, by rw [h3]; rfl, by rw [h4]; rfl, ?_, ?_⟩
  · have := h5 0 0 2 (by decide) (by decide)
    simpa using this
  · exact h6 0 0 0 (by rw [h2]; decide) (by rw [h3]; decide) (by omega)

/-- Counterexample to C1 as stated: a 3-D buffer with four channels
and all zero padding makes numpy.full raise, because the fill value
(0, 0, 0) does not broadcast to a shape with last axis 4, so no padded
buffer of shape (H, W, C) is returned. -/
theorem add_padding_four_channel_cex :
    padResultErr (add_padding (Image.color 1 1 4 (fun _ _ _ => 7)) 0 0 0 0) =
      some .fillBroadcast := by
  decide

/-- C5 (amended, failing part): with left padding -1 on a grayscale
buffer of width at least 2, the normalised slice region has width 1,
the source does not broadcast to it, and the assignment fails with the
numpy broadcast error (the ShapeMismatch of the specification). -/
theorem add_padding_negative_broadcast (H W : Nat) (px : Nat → Nat → Nat)
    (hW : 2 ≤ W) :
    add_padding (Image.gray H W px) (-1) 0 0 0 = .error .assignBroadcast := by
  show padGray H W px (-1) 0 0 0 = .error .assignBroadcast
  unfold padGray
  rw [if_neg (by omega)]
  have e1 : pyNorm (0 + (0 : Int)) (((H : Int) + (0 : Int) + (0 : Int)).toNat) = 0 := by
    rw [pyNorm_nonneg _ _ (by omega) (by omega)]
    omega
  have e2 : pyNorm (((H : Int) + (0 : Int) + (0 : Int)) - (0 : Int))
      (((H : Int) + (0 : Int) + (0 : Int)).toNat) = H := by
    rw [pyNorm_nonneg _ _ (by omega) (by omega)]
    omega
  have e3 : pyNorm (0 + (-1 : Int)) (((W : Int) + (-1 : Int) + (0 : Int)).toNat) = W - 2 := by
    unfold pyNorm
    rw [if_pos (by omega)]
    omega
  have e4 : pyNorm (((W : Int) + (-1 : Int) + (0 : Int)) - (0 : Int))
      (((W : Int) + (-1 : Int) + (0 : Int)).toNat) = W - 1 := by
    rw [pyNorm_nonneg _ _ (by omega) (by omega)]
    omega
  rw [e1, e2, e3, e4]
  unfold padAssign2
  rw [if_neg (by omega)]

/-- Witness for add_padding_negative_broadcast on a 2 by 2 buffer. -/
theorem add_padding_negative_broadcast_witness :
    add_padding (Image.gray 2 2 (fun _ _ => 9)) (-1) 0 0 0 = .error .assignBroadcast :=
  add_padding_negative_broadcast 2 2 (fun _ _ => 9) (by omega)

/-- Counterexample to C5 as stated: on a 1 by 1 grayscale buffer with
left padding -1 the copied region has shape (1, 0), different from the
source shape (1, 1), yet numpy broadcasting accepts the size one source
axis and add_padding returns an empty 1 by 0 buffer with no error:
the mismatch is not always rejected. -/
theorem add_padding_silent_truncation_cex :
    padResultErr (add_padding (Image.gray 1 1 (fun _ _ => 5)) (-1) 0 0 0) = none ∧
    padResultShape (add_padding (Image.gray 1 1 (fun _ _ => 5)) (-1) 0 0 0) =
      some (1, 0, none) := by
  decide

/-- C7 (amended): for every grayscale buffer and every 3-channel color
buffer, add_padding with all four paddings zero returns a buffer of the
same shape whose samples all equal the input; the result is a fresh
buffer created by numpy.full, not the input object.  (A 3-D buffer
with a channel count other than 3 raises instead; see the
counterexample.) -/
theorem add_padding_noop (img : Image) (hch : channelsOk img = true) :
    ∃ out, add_padding img 0 0 0 0 = .ok out ∧
      out.heightOf = img.heightOf ∧
      out.widthOf = img.widthOf ∧
      out.chanOf = img.chanOf ∧
      ∀ i j k, i < img.heightOf → j < img.widthOf →
        out.sample i j k = img.sample i j k := by
  cases img with
  | gray H W px =>
    refine ⟨Image.gray (H + 0 + 0) (W + 0 + 0) (paste2 0 H 0 W H W px),
      padGray_nat H W px 0 0 0 0, rfl, rfl, rfl, ?_⟩
    intro i j k hi hj
    simp only [Image.sample, Image.heightOf, Image.widthOf] at *
    rw [paste2_exact, if_pos ⟨by omega, by omega, by omega, by omega⟩]
    rfl
  | color H W C px =>
    have hc : C = 3 := by
      simpa [channelsOk] using hch
    subst hc
    refine ⟨Image.color (H + 0 + 0) (W + 0 + 0) 3 (paste3 0 H 0 W H W px),
      padColor_nat H W px 0 0 0 0, rfl, rfl, rfl, ?_⟩
    intro i j k hi hj
    simp only [Image.sample, Image.heightOf, Image.widthOf] at *
    rw [paste3_exact, if_pos ⟨by omega, by omega, by omega, by omega⟩]
    rfl

/-- Witness for add_padding_noop on a concrete 2 by 1 buffer. -/
theorem add_padding_noop_witness :
    ∃ out, add_padding (Image.gray 2 1 (fun i _ => i + 10)) 0 0 0 0 = .ok out ∧
      out.heightOf = 2 ∧ out.widthOf = 1 ∧ out.sample 1 0 0 = 11 := by
  obtain ⟨out, h1, h2, h3, h4, h5⟩ :=
    add_padding_noop (Image.gray 2 1 (fun i _ => i + 10)) rfl
  exact ⟨out, h1, by rw [h2]; rfl, by rw [h3]; rfl,
    by simpa using h5 1 0 0 (by decide) (by decide)⟩

/-- Counterexample to C7 as stated: a 3-D buffer with a single channel
and all zero padding raises in numpy.full (fill (0, 0, 0) against last
axis 1), so no content equal buffer is returned. -/
theorem add_padding_noop_single_channel_cex :
    padResultErr (add_padding (Image.color 1 1 1 (fun _ _ _ => 6)) 0 0 0 0) =
      some .fillBroadcast := by
  decide

/-- C8: add_padding never mutates the input buffer: in the store level
embedding, the call allocates and writes only the fresh pad_img buffer,
so the entry of the input buffer is unchanged for every padding
choice, including the failing ones. -/
theorem add_padding_frame (h : Heap) (imageId : Nat) (l t r b : Int)
    (hid : imageId < h.next) :
    (add_padding_heap h imageId l t r b).1.bufs imageId = h.bufs imageId := by
  unfold add_padding_heap
  cases hb : h.bufs imageId with
  | none => exact hb
  | some img =>
    show (heapFinish h (add_padding img l t r b)).1.bufs imageId = some img
    cases hp : add_padding img l t r b with
    | error e => exact hb
    | ok out =>
      show (if imageId = h.next then some out else h.bufs imageId) = some img
      rw [if_neg (by omega)]
      exact hb

/-- Witness for add_padding_frame on a one buffer heap. -/
theorem add_padding_frame_witness :
    (add_padding_heap
        ⟨fun i => if i = 0 then some (Image.gray 1 1 (fun _ _ => 9)) else none, 1⟩
        0 1 1 1 1).1.bufs 0 =
      some (Image.gray 1 1 (fun _ _ => 9)) := by
  rw [add_padding_frame _ 0 1 1 1 1 (by decide)]
  rfl

/-- C2 (amended): for every source path containing a separator, new_url
replaces the final path segment by output_name when output_name ends
case insensitively in .jpg, .jpeg or .jpe and by output_name + ".jpg"
otherwise, splitting on "/" when a slash is present and on "\" when
only backslashes are present, but the parts are always rejoined with
"\": a "/" separated directory part is preserved segment by segment
while its separators are rewritten to "\". -/
theorem deriveOutputUrl_spec (image_url output_name : String)
    (hsep : pyContains image_url '/' = true ∨ pyContains image_url '\\' = true) :
    deriveOutputUrl image_url output_name =
      some (pyJoin ("\\") (setLast
        (pySplit (if pyContains image_url '/' then '/' else '\\') image_url)
        (if isJpegName output_name then output_name
         else output_name ++ (".jpg")))) := by
  unfold deriveOutputUrl
  by_cases h1 : pyContains image_url '/'
  · by_cases h3 : isJpegName output_name <;>
      by_cases h2 : pyContains image_url '\\' <;> simp [h1, h2, h3]
  · have h2 : pyContains image_url '\\' = true := by
      rcases hsep with h | h
      · exact absurd h h1
      · exact h
    by_cases h3 : isJpegName output_name <;> simp [h1, h2, h3]

/-- Witness for deriveOutputUrl_spec on a backslash separated path. -/
theorem deriveOutputUrl_spec_witness :
    deriveOutputUrl ("dir\\c.png") ("out") = some ("dir\\out.jpg") := by
  rw [deriveOutputUrl_spec ("dir\\c.png") ("out") (Or.inr (by decide))]
  decide

/-- Counterexample to C2 as stated: for source "a/b/c.png" the code
rejoins with a backslash, so the derived path is "a\b\out.jpg" and not
the claimed "a/b/out.jpg" (and "a\b\out.jpeg", not "a/b/out.jpeg"):
the directory part is not preserved verbatim. -/
theorem deriveOutputUrl_slash_cex :
    deriveOutputUrl ("a/b/c.png") ("out") = some ("a\\b\\out.jpg") ∧
    deriveOutputUrl ("a/b/c.png") ("out") ≠ some ("a/b/out.jpg") ∧
    deriveOutputUrl ("a/b/c.png") ("out.jpeg") = some ("a\\b\\out.jpeg") ∧
    deriveOutputUrl ("a/b/c.png") ("out.jpeg") ≠ some ("a/b/out.jpeg") := by
  decide

/-- C3: when the source file exists but its extension is not on the
allow list, the decode branch is skipped: no imread call happens, no
write happens, and the call runs on to the imwrite attempt with the
variable image unassigned, where the resulting NameError is caught and
printed (the unassigned new_url is evaluated first when both are
missing). -/
theorem compress_skips_decode (env : Env) (image_url output_name : String)
    (quality : Int) (optimize progressive : Bool) (chroma_quality luma_quality : Int)
    (hex : env.fileTable image_url = true) (hext : isAllowedSource image_url = false) :
    compress_image_jpeg env image_url output_name quality optimize progressive
        chroma_quality luma_quality =
      ([Event.printed (logHead ++
          (if (deriveOutputUrl image_url output_name).isSome then nameErrorImage
           else nameErrorNewUrl))], none) ∧
    ∀ ev ∈ (compress_image_jpeg env image_url output_name quality optimize progressive
        chroma_quality luma_quality).1,
      isDecodeEvent ev = false ∧ isWriteEvent ev = false := by
  have key : compress_image_jpeg env image_url output_name quality optimize progressive
      chroma_quality luma_quality =
      ([Event.printed (logHead ++
          (if (deriveOutputUrl image_url output_name).isSome then nameErrorImage
           else nameErrorNewUrl))], none) := by
    unfold compress_image_jpeg
    rw [if_pos hex]
    cases hd : deriveOutputUrl image_url output_name with
    | none => simp [hext, hd]
    | some u => simp [hext, hd]
  refine ⟨key, ?_⟩
  rw [key]
  intro ev hev
  simp only [List.mem_singleton] at hev
  subst hev
  exact ⟨rfl, rfl⟩

/-- Witness for compress_skips_decode on an existing .txt source. -/
theorem compress_skips_decode_witness :
    compress_image_jpeg ⟨fun _ => true, none⟩ ("a/data.txt") ("out") 90 true true 75 75 =
      ([Event.printed (logHead ++ nameErrorImage)], none) := by
  have h := (compress_skips_decode ⟨fun _ => true, none⟩ ("a/data.txt") ("out")
    90 true true 75 75 rfl (by decide)).1
  rw [h]
  decide

/-- C4: when the source path does not exist, compress_image_jpeg raises
the ValueError of line 118 (the NotFound failure of the specification)
before the try block, so the exception propagates to the caller and no
event, in particular no write, is emitted. -/
theorem compress_missing_raises (env : Env) (image_url output_name : String)
    (quality : Int) (optimize progressive : Bool) (chroma_quality luma_quality : Int)
    (hex : env.fileTable image_url = false) :
    compress_image_jpeg env image_url output_name quality optimize progressive
        chroma_quality luma_quality =
      ([], some (.valueError missingMsg)) := by
  unfold compress_image_jpeg
  rw [if_neg (by simp [hex])]

/-- Witness for compress_missing_raises. -/
theorem compress_missing_raises_witness :
    compress_image_jpeg ⟨fun _ => false, none⟩ ("a/x.png") ("out") 90 true true 75 75 =
      ([], some (.valueError missingMsg)) :=
  compress_missing_raises _ _ _ _ _ _ _ _ rfl

/-- C6: once the call reaches the imwrite attempt with a decoded buffer
and an assigned new_url, an encode error is caught inside the function:
the only signal is the printed diagnostic carrying the error text, and
nothing propagates to the caller; on encode success the printed
confirmation names the derived output path (the Python function body
has no return statement in either case). -/
theorem compress_encode_reporting (env : Env) (image_url output_name u : String)
    (quality : Int) (optimize progressive : Bool) (chroma_quality luma_quality : Int)
    (hex : env.fileTable image_url = true) (hext : isAllowedSource image_url = true)
    (hurl : deriveOutputUrl image_url output_name = some u) :
    (∀ e, env.encodeError = some e →
      compress_image_jpeg env image_url output_name quality optimize progressive
          chroma_quality luma_quality =
        ([Event.decodeCall image_url, Event.printed (logHead ++ e)], none)) ∧
    (env.encodeError = none →
      compress_image_jpeg env image_url output_name quality optimize progressive
          chroma_quality luma_quality =
        ([Event.decodeCall image_url,
          Event.writeCall u
            [IMWRITE_JPEG_QUALITY, quality,
             IMWRITE_JPEG_OPTIMIZE, if optimize then 1 else 0,
             IMWRITE_JPEG_PROGRESSIVE, if progressive then 1 else 0,
             IMWRITE_JPEG_CHROMA_QUALITY, chroma_quality,
             IMWRITE_JPEG_LUMA_QUALITY, luma_quality],
          Event.printed (("Image compressed successfully: ") ++ u)], none)) := by
  constructor
  · intro e he
    unfold compress_image_jpeg
    rw [if_pos hex]
    simp [hext, hurl, he]
  · intro he
    unfold compress_image_jpeg
    rw [if_pos hex]
    simp [hext, hurl, he]

/-- Witness for compress_encode_reporting with a raising encoder. -/
theorem compress_encode_reporting_witness :
    compress_image_jpeg ⟨fun _ => true, some ("boom")⟩ ("a/x.png") ("out") 90 true true 75 75 =
      ([Event.decodeCall ("a/x.png"), Event.printed (logHead ++ ("boom"))], none) :=
  (compress_encode_reporting ⟨fun _ => true, some ("boom")⟩ ("a/x.png") ("out")
    ("a\\out.jpg") 90 true true 75 75 rfl (by decide) (by decide)).1 ("boom") rfl

/-- C9: the write options passed to imwrite pair each OpenCV constant
with its value: the booleans optimize and progressive are translated to
the integers 1 for True and 0 for False, and quality, chroma_quality
and luma_quality are passed through unchanged, with no validation or
clamping of out of range values. -/
theorem compress_flag_translation (env : Env) (image_url output_name u : String)
    (quality : Int) (optimize progressive : Bool) (chroma_quality luma_quality : Int)
    (hex : env.fileTable image_url = true) (hext : isAllowedSource image_url = true)
    (hurl : deriveOutputUrl image_url output_name = some u)
    (henc : env.encodeError = none) :
    Event.writeCall u
        [IMWRITE_JPEG_QUALITY, quality,
         IMWRITE_JPEG_OPTIMIZE, if optimize then 1 else 0,
         IMWRITE_JPEG_PROGRESSIVE, if progressive then 1 else 0,
         IMWRITE_JPEG_CHROMA_QUALITY, chroma_quality,
         IMWRITE_JPEG_LUMA_QUALITY, luma_quality] ∈
      (compress_image_jpeg env image_url output_name quality optimize progressive
        chroma_quality luma_quality).1 := by
  unfold compress_image_jpeg
  rw [if_pos hex]
  simp [hext, hurl, henc]

/-- Witness for compress_flag_translation, with quality 150 and chroma
quality -5 passed through unclamped, optimize True as 1 and
progressive False as 0. -/
theorem compress_flag_translation_witness :
    Event.writeCall ("a\\out.jpg") [1, 150, 3, 1, 2, 0, 6, -5, 5, 75] ∈
      (compress_image_jpeg ⟨fun _ => true, none⟩ ("a/x.png") ("out")
        150 true false (-5) 75).1 := by
  have h := compress_flag_translation ⟨fun _ => true, none⟩ ("a/x.png") ("out")
    ("a\\out.jpg") 150 true false (-5) 75 rfl (by decide) (by decide) rfl
  simpa [IMWRITE_JPEG_QUALITY, IMWRITE_JPEG_OPTIMIZE, IMWRITE_JPEG_PROGRESSIVE,
    IMWRITE_JPEG_CHROMA_QUALITY, IMWRITE_JPEG_LUMA_QUALITY] using h

/-- C10: for an existing, allow listed source whose path has neither a
slash nor a backslash, the variable new_url is never assigned; the
imwrite attempt then raises the NameError for new_url inside the try
block, which is caught: the only output is the failure diagnostic, no
write event occurs, and nothing propagates to the caller. -/
theorem compress_bare_name_caught (env : Env) (image_url output_name : String)
    (quality : Int) (optimize progressive : Bool) (chroma_quality luma_quality : Int)
    (hex : env.fileTable image_url = true) (hext : isAllowedSource image_url = true)
    (h1 : pyContains image_url '/' = false) (h2 : pyContains image_url '\\' = false) :
    deriveOutputUrl image_url output_name = none ∧
    compress_image_jpeg env image_url output_name quality optimize progressive
        chroma_quality luma_quality =
      ([Event.decodeCall image_url, Event.printed (logHead ++ nameErrorNewUrl)], none) := by
  have hd : deriveOutputUrl image_url output_name = none := by
    unfold deriveOutputUrl
    simp [h1, h2]
  refine ⟨hd, ?_⟩
  unfold compress_image_jpeg
  rw [if_pos hex]
  simp [hext, hd]

/-- Witness for compress_bare_name_caught on the bare path "pic.png". -/
theorem compress_bare_name_caught_witness :
    compress_image_jpeg ⟨fun _ => true, none⟩ ("pic.png") ("out") 90 true true 75 75 =
      ([Event.decodeCall ("pic.png"), Event.printed (logHead ++ nameErrorNewUrl)], none) :=
  (compress_bare_name_caught ⟨fun _ => true, none⟩ ("pic.png") ("out")
    90 true true 75 75 rfl (by decide) (by decide) (by decide)).2
